import Mathlib

/-!
Verification of the airport booking validation core (airport/models.py,
airport/forms.py) against its specification.

Times are modelled as integers (e.g. minutes since midnight); database
state is an explicit list of flight rows; Django querysets such as
`self.airplane.flights.exclude(pk=self.pk)` become list filters; a
`ValidationError` raise becomes an `Except.error` carrying which check
fired.  Decimal prices are modelled exactly in integer cents, with the
seat-class multiplier carried in hundredths (a 2-decimal-place decimal).
-/

namespace Airport

/-- A flight row: primary key, airplane reference, many-to-many crew set,
and the time window, mirroring `Flight` in models.py. -/
structure Flight where
  pk : Nat
  airplane : Nat
  crew_members : List Nat
  departure_time : Int
  arrival_time : Int
deriving DecidableEq

/-- The overlap test from `Flight.clean` (models.py:157, 163) and
`FlightAdminForm.clean` (forms.py:22):
`flight.departure_time <= arrival and flight.arrival_time >= departure`. -/
def conflictsWith (other : Flight) (departure arrival : Int) : Bool :=
  decide (other.departure_time ≤ arrival) && decide (other.arrival_time ≥ departure)

/-- `self.airplane.flights.exclude(pk=self.pk)` (models.py:155). -/
def airplaneFlightsExcl (self : Flight) (db : List Flight) : List Flight :=
  db.filter (fun f => f.airplane == self.airplane && f.pk != self.pk)

/-- `member.flights.exclude(pk=pk)` (models.py:161, forms.py:20). -/
def memberFlightsExcl (member : Nat) (pk : Nat) (db : List Flight) : List Flight :=
  db.filter (fun f => f.crew_members.contains member && f.pk != pk)

/-- Which `ValidationError` fired in `Flight.clean`. -/
inductive FlightError where
  | airplaneConflict
  | crewConflict (member : Nat)
  | timeOrder
deriving DecidableEq

/-- `Flight.clean` (models.py:154-167), checks in source order: first the
airplane-overlap loop, then the per-crew-member overlap loop, and last the
`arrival_time <= departure_time` check. -/
def flight_clean (self : Flight) (db : List Flight) : Except FlightError Unit :=
  match (airplaneFlightsExcl self db).find?
      (fun f => conflictsWith f self.departure_time self.arrival_time) with
  | some _ => .error .airplaneConflict
  | none =>
    match self.crew_members.find? (fun m =>
        (memberFlightsExcl m self.pk db).any
          (fun f => conflictsWith f self.departure_time self.arrival_time)) with
    | some m => .error (.crewConflict m)
    | none =>
      if self.arrival_time ≤ self.departure_time then .error .timeOrder
      else .ok ()

/-- A `ConflictError` in the spec's taxonomy is an airplane or crew overlap
rejection (not the time-ordering rejection). -/
def isConflictError : Except FlightError Unit → Bool
  | .error .airplaneConflict => true
  | .error (.crewConflict _) => true
  | _ => false

/-- `FlightAdminForm.clean` (forms.py:11-25): the roster-edit entry point.
`departure`/`arrival` are the (possibly absent) cleaned form values,
`crew_members` the candidate roster, `flight_id` is `self.instance.pk`
(`none` for a new flight; `exclude(pk=None)` excludes nothing). -/
def form_clean (departure arrival : Option Int) (crew_members : List Nat)
    (flight_id : Option Nat) (db : List Flight) : Except Nat Unit :=
  match departure, arrival with
  | some d, some a =>
    if crew_members.isEmpty then .ok ()
    else
      match crew_members.find? (fun m =>
          (db.filter (fun f => f.crew_members.contains m &&
              (match flight_id with | some pk => f.pk != pk | none => true))).any
            (fun f => decide (f.departure_time ≤ a) && decide (f.arrival_time ≥ d))) with
      | some m => .error m
      | none => .ok ()
  | _, _ => .ok ()

/-- `Decimal.quantize(Decimal("0.01"))` with the default context rounding
ROUND_HALF_EVEN, applied to an exact value of n tenths of a cent: round
n/10 to the nearest integer, ties to even. -/
def round_half_even_div10 (n : Nat) : Nat :=
  let q := n / 10
  let r := n % 10
  if r < 5 then q
  else if 5 < r then q + 1
  else if q % 2 = 0 then q else q + 1

/-- `Ticket.get_price` (models.py:219-224), in integer cents:
`Decimal("0.1") * round(distance) * multiplier` quantized to two decimal
places.  `distance` is the route's integral distance (so `round` is the
identity on it) and `mult100` is the seat-class multiplier in hundredths
(a `DecimalField` with 2 decimal places); the exact product in cents is
`distance * mult100 / 10`. -/
def get_price (distance mult100 : Nat) : Nat :=
  round_half_even_div10 (distance * mult100)

/-- Which `ValidationError` fired in `Ticket.clean`. -/
inductive TicketError where
  | boundsNonPositive
  | boundsExceeds
deriving DecidableEq

/-- A ticket row: seat coordinates and the (client-supplied) price in
cents, mirroring `Ticket` in models.py. -/
structure Ticket where
  row : Int
  seat : Int
  price : Nat
deriving DecidableEq

/-- `Ticket.clean` (models.py:226-232): bounds checks against the flight's
airplane layout. -/
def ticket_clean (t : Ticket) (rows seats_in_row : Int) : Except TicketError Unit :=
  if t.row ≤ 0 || t.seat ≤ 0 then .error .boundsNonPositive
  else if t.row > rows || t.seat > seats_in_row then .error .boundsExceeds
  else .ok ()

/-- `Ticket.save` (models.py:234-237): run `full_clean`, then overwrite
`self.price` with `get_price(self.flight, self.seat_class)` before the
write commits. -/
def ticket_save (t : Ticket) (rows seats_in_row : Int) (distance mult100 : Nat) :
    Except TicketError Ticket :=
  match ticket_clean t rows seats_in_row with
  | .error e => .error e
  | .ok () => .ok { t with price := get_price distance mult100 }

/-- Python `str.strip()` over a character list: drop whitespace from both
ends. -/
def pyStrip (s : List Char) : List Char :=
  ((s.dropWhile Char.isWhitespace).reverse.dropWhile Char.isWhitespace).reverse

/-- Python `str.isalpha()`: nonempty and every character alphabetic. -/
def pyIsAlpha (s : List Char) : Bool :=
  !s.isEmpty && s.all Char.isAlpha

/-- Python `str.upper()`. -/
def pyUpper (s : List Char) : List Char :=
  s.map Char.toUpper

/-- Python `str.capitalize()`: the first character uppercased, every
subsequent character lowercased. -/
def pyCapitalize (s : List Char) : List Char :=
  match s with
  | [] => []
  | c :: cs => Char.toUpper c :: cs.map Char.toLower

/-- `Country.clean` (models.py:17-19): raises when
`len(self.iso_code.strip()) != 2 or not self.iso_code.isalpha()`; so it
passes iff the STRIPPED length is 2 and the RAW string is alphabetic. -/
def country_clean (iso_code : List Char) : Bool :=
  decide ((pyStrip iso_code).length = 2) && pyIsAlpha iso_code

/-- `Country.save` (models.py:21-25): `full_clean` runs first, and only
then are `name` (`capitalize().strip()`) and `iso_code`
(`upper().strip()`) normalized; returns the stored (name, iso_code). -/
def country_save (name iso_code : List Char) : Except Unit (List Char × List Char) :=
  if country_clean iso_code then
    .ok (pyStrip (pyCapitalize name), pyStrip (pyUpper iso_code))
  else .error ()

/-- The contract order claimed by the spec, for comparison with
`country_clean`: normalize `iso_code` to uppercase/trimmed FIRST, then
apply the 2-alphabetic-character check to the normalized value. -/
def country_clean_spec_order (iso_code : List Char) : Bool :=
  let n := pyStrip (pyUpper iso_code)
  decide ((pyStrip n).length = 2) && pyIsAlpha n

/-- `City.clean` and `City.save` (models.py:40-47): the stripped timezone
must belong to the IANA database (`available_timezones`, passed in); the
stored name is `capitalize().strip()`. -/
def city_save (name timezone : List Char) (available_timezones : List (List Char)) :
    Except Unit (List Char) :=
  if available_timezones.contains (pyStrip timezone) then
    .ok (pyStrip (pyCapitalize name))
  else .error ()

/-- `SeatClass.clean` and `SeatClass.save` (models.py:182-191): priority
non-negative and multiplier (in hundredths) at least 1.00; the stored
name is `capitalize().strip()`. -/
def seatclass_save (name : List Char) (priority mult100 : Int) :
    Except Unit (List Char) :=
  if priority < 0 then .error ()
  else if mult100 < 100 then .error ()
  else .ok (pyStrip (pyCapitalize name))

end Airport

namespace Airport

/-- An alphabetic character is not whitespace. -/
theorem isAlpha_not_ws (c : Char) (h : c.isAlpha = true) : c.isWhitespace = false := by
  by_contra hws
  rw [Bool.not_eq_false] at hws
  simp [Char.isWhitespace] at hws
  simp [Char.isAlpha, Char.isUpper, Char.isLower] at h
  rcases hws with ((rfl | rfl) | rfl) | rfl <;> exact absurd h (by decide)

/-- `dropWhile` is the identity on a list with no whitespace. -/
theorem dropWhile_ws_eq_self :
    ∀ (s : List Char), (∀ c ∈ s, c.isWhitespace = false) →
      s.dropWhile Char.isWhitespace = s
  | [], _ => rfl
  | c :: cs, h => by
    rw [List.dropWhile_cons]
    simp [h c (List.mem_cons_self c cs)]

/-- `strip` is the identity on a string with no whitespace. -/
theorem pyStrip_eq_self (s : List Char) (h : ∀ c ∈ s, c.isWhitespace = false) :
    pyStrip s = s := by
  unfold pyStrip
  rw [dropWhile_ws_eq_self s h]
  rw [dropWhile_ws_eq_self s.reverse
    (fun c hc => h c (List.mem_reverse.mp hc))]
  exact List.reverse_reverse s

/-- C1: for two flights A and B on the same airplane, distinct by identity,
with B carrying no crew, saving B raises a ConflictError iff
`A.departure_time <= B.arrival_time AND A.arrival_time >= B.departure_time`. -/
theorem flight_conflict_iff (A B : Flight) (hap : A.airplane = B.airplane)
    (hpk : A.pk ≠ B.pk) (hcrew : B.crew_members = []) :
    isConflictError (flight_clean B [A]) = true ↔
      (A.departure_time ≤ B.arrival_time ∧ A.arrival_time ≥ B.departure_time) := by
  have hfilter : airplaneFlightsExcl B [A] = [A] := by
    simp [airplaneFlightsExcl, hap, hpk]
  by_cases hconf : conflictsWith A B.departure_time B.arrival_time = true
  · have : (airplaneFlightsExcl B [A]).find?
        (fun f => conflictsWith f B.departure_time B.arrival_time) = some A := by
      simp [hfilter, List.find?, hconf]
    simp only [flight_clean, this, isConflictError]
    simp [conflictsWith] at hconf
    simp [hconf]
  · have : (airplaneFlightsExcl B [A]).find?
        (fun f => conflictsWith f B.departure_time B.arrival_time) = none := by
      simp [hfilter, List.find?, hconf]
    simp only [flight_clean, this, hcrew]
    simp [conflictsWith] at hconf
    by_cases htime : B.arrival_time ≤ B.departure_time <;>
      simp [htime, isConflictError] <;> exact hconf

/-- Witness for C1, instantiating the touching-endpoint case: existing
flight [10:00,12:00) and new flight [12:00,14:00) (minutes since midnight)
on the same airplane do conflict. -/
theorem flight_conflict_iff_witness :
    isConflictError (flight_clean ⟨2, 3, [], 720, 840⟩ [⟨1, 3, [], 600, 720⟩]) = true :=
  (flight_conflict_iff ⟨1, 3, [], 600, 720⟩ ⟨2, 3, [], 720, 840⟩ rfl
    (by decide) rfl).mpr (by decide)

/-- C2 counterexample: a flight with `arrival_time <= departure_time`
(departing 100, arriving 50) that also overlaps another flight of the same
airplane is rejected with the airplane-overlap error, not the time-ordering
error: in `Flight.clean` the overlap loops run first. -/
theorem flight_order_counterexample :
    (⟨2, 3, [], 100, 50⟩ : Flight).arrival_time ≤
      (⟨2, 3, [], 100, 50⟩ : Flight).departure_time ∧
    flight_clean ⟨2, 3, [], 100, 50⟩ [⟨1, 3, [], 40, 120⟩]
      = Except.error FlightError.airplaneConflict ∧
    flight_clean ⟨2, 3, [], 100, 50⟩ [⟨1, 3, [], 40, 120⟩]
      ≠ Except.error FlightError.timeOrder := by
  refine ⟨by decide, rfl, ?_⟩
  intro hcontra
  have h2 : (Except.error FlightError.airplaneConflict : Except FlightError Unit)
      = Except.error FlightError.timeOrder := by
    rw [← hcontra]
    rfl
  exact absurd (Except.error.inj h2) (by decide)

/-- C2 amended: on a Flight write the checks run in the order airplane
overlap, crew overlap, then time-ordering; hence a flight with
`arrival_time <= departure_time` is always rejected, but when it also
overlaps a flight of the same airplane the error reported is the
airplane-overlap error, and the time-ordering error fires only when
neither overlap check fires: when it does, no other-flight of the
airplane conflicted and no crew member of the candidate roster had a
conflicting flight. -/
theorem flight_time_check_last (B : Flight) (db : List Flight)
    (h : B.arrival_time ≤ B.departure_time) :
    flight_clean B db ≠ Except.ok () ∧
    (∀ A ∈ db, A.airplane = B.airplane → A.pk ≠ B.pk →
      conflictsWith A B.departure_time B.arrival_time = true →
      flight_clean B db = Except.error FlightError.airplaneConflict) ∧
    (flight_clean B db = Except.error FlightError.timeOrder →
      (airplaneFlightsExcl B db).find?
        (fun f => conflictsWith f B.departure_time B.arrival_time) = none ∧
      ∀ m ∈ B.crew_members,
        (memberFlightsExcl m B.pk db).any
          (fun f => conflictsWith f B.departure_time B.arrival_time) = false) := by
  refine ⟨?_, ?_, ?_⟩
  · cases hfind : (airplaneFlightsExcl B db).find?
        (fun f => conflictsWith f B.departure_time B.arrival_time) with
    | some f => simp [flight_clean, hfind]
    | none =>
      cases hfind2 : B.crew_members.find? (fun m =>
          (memberFlightsExcl m B.pk db).any
            (fun f => conflictsWith f B.departure_time B.arrival_time)) with
      | some m => simp [flight_clean, hfind, hfind2]
      | none => simp [flight_clean, hfind, hfind2, h]
  · intro A hA hap hpk hc
    have hmem : A ∈ airplaneFlightsExcl B db := by
      simp [airplaneFlightsExcl, List.mem_filter, hA, hap, hpk]
    cases hfind : (airplaneFlightsExcl B db).find?
        (fun f => conflictsWith f B.departure_time B.arrival_time) with
    | none =>
      rw [List.find?_eq_none] at hfind
      exact absurd hc (hfind A hmem)
    | some f => simp [flight_clean, hfind]
  · intro htime
    cases hfind : (airplaneFlightsExcl B db).find?
        (fun f => conflictsWith f B.departure_time B.arrival_time) with
    | some f => simp [flight_clean, hfind] at htime
    | none =>
      cases hfind2 : B.crew_members.find? (fun m =>
          (memberFlightsExcl m B.pk db).any
            (fun f => conflictsWith f B.departure_time B.arrival_time)) with
      | some m => simp [flight_clean, hfind, hfind2] at htime
      | none =>
        refine ⟨rfl, ?_⟩
        rw [List.find?_eq_none] at hfind2
        intro m hm
        simpa using hfind2 m hm

/-- Witness for C2's amended theorem: the counterexample flight (window
[100,50], overlapping [40,120] on the same airplane) is rejected with the
airplane-overlap error. -/
theorem flight_time_check_last_witness :
    flight_clean ⟨2, 3, [], 100, 50⟩ [⟨1, 3, [], 40, 120⟩]
      = Except.error FlightError.airplaneConflict :=
  (flight_time_check_last ⟨2, 3, [], 100, 50⟩ [⟨1, 3, [], 40, 120⟩]
    (by decide)).2.1 ⟨1, 3, [], 40, 120⟩ (by decide) rfl (by decide) (by decide)

/-- C3 counterexample: crew member 7 has an existing flight [9:00,11:00)
(minutes 540-660); assigning member 7 to a candidate window [11:00,13:00)
(minutes 660-780) through the roster-edit form does NOT succeed: the
inclusive predicate (`flight.arrival_time >= departure`, 660 >= 660)
reports a conflict at the touching boundary. -/
theorem roster_touching_counterexample :
    form_clean (some 660) (some 780) [7] none [⟨1, 1, [7], 540, 660⟩]
      = Except.error 7 ∧
    form_clean (some 660) (some 780) [7] none [⟨1, 1, [7], 540, 660⟩]
      ≠ Except.ok () := by
  refine ⟨rfl, ?_⟩
  intro hcontra
  have h2 : (Except.error 7 : Except Nat Unit) = Except.ok () := by
    rw [← hcontra]
    rfl
  exact Except.noConfusion h2

/-- C3 amended: with crew member 7 holding an existing flight [9:00,11:00),
assigning member 7 to candidate window [10:00,12:00) fails with a
ConflictError naming member 7, and assigning to the touching window
[11:00,13:00) ALSO fails with a ConflictError naming member 7 (the
closed-interval predicate treats the shared endpoint as a conflict). -/
theorem roster_conflicts_both :
    form_clean (some 600) (some 720) [7] none [⟨1, 1, [7], 540, 660⟩]
      = Except.error 7 ∧
    form_clean (some 660) (some 780) [7] none [⟨1, 1, [7], 540, 660⟩]
      = Except.error 7 :=
  ⟨rfl, rfl⟩

/-- C8: both overlap checks exclude the flight being saved by identity
(`exclude(pk=self.pk)`), so re-saving an unchanged flight over a database
whose rows all carry its own primary key raises no ConflictError: the save
succeeds whenever the window itself is valid. -/
theorem flight_self_exclusion (F : Flight) (db : List Flight)
    (hdb : ∀ g ∈ db, g.pk = F.pk) (h : F.departure_time < F.arrival_time) :
    flight_clean F db = Except.ok () := by
  have hap : airplaneFlightsExcl F db = [] := by
    rw [airplaneFlightsExcl, List.filter_eq_nil_iff]
    intro a ha
    simp [hdb a ha]
  have hmem : ∀ m, memberFlightsExcl m F.pk db = [] := by
    intro m
    rw [memberFlightsExcl, List.filter_eq_nil_iff]
    intro a ha
    simp [hdb a ha]
  have hcrew : F.crew_members.find? (fun m =>
      (memberFlightsExcl m F.pk db).any
        (fun f => conflictsWith f F.departure_time F.arrival_time)) = none := by
    rw [List.find?_eq_none]
    intro m _
    simp [hmem m]
  have hfind : (airplaneFlightsExcl F db).find?
      (fun f => conflictsWith f F.departure_time F.arrival_time) = none := by
    simp [hap]
  simp [flight_clean, hfind, hcrew, not_le.mpr h]

/-- Witness for C8: a flight re-saved against a database holding exactly
itself passes validation. -/
theorem flight_self_exclusion_witness :
    flight_clean ⟨1, 1, [5], 0, 10⟩ [⟨1, 1, [5], 0, 10⟩] = Except.ok () :=
  flight_self_exclusion ⟨1, 1, [5], 0, 10⟩ [⟨1, 1, [5], 0, 10⟩]
    (by decide) (by decide)

/-- C9: the roster-edit entry point performs no crew-conflict check when
the candidate roster is empty or when departure or arrival is absent from
the cleaned form data: it accepts the write unconditionally in those
cases, whatever the database holds. -/
theorem form_skips_checks (departure arrival : Option Int) (crew : List Nat)
    (fid : Option Nat) (db : List Flight)
    (h : crew = [] ∨ departure = none ∨ arrival = none) :
    form_clean departure arrival crew fid db = Except.ok () := by
  rcases h with rfl | rfl | rfl
  · cases departure <;> cases arrival <;> simp [form_clean]
  · simp [form_clean]
  · cases departure <;> simp [form_clean]

/-- Witness for C9: member 7 is double-booked ([9:00,11:00) exists and the
submitted departure 10:00 falls inside it), yet with `arrival_time` absent
from the form data the roster edit is accepted. -/
theorem form_skips_checks_witness :
    form_clean (some 600) none [7] none [⟨1, 1, [7], 540, 660⟩]
      = Except.ok () :=
  form_skips_checks (some 600) none [7] none [⟨1, 1, [7], 540, 660⟩]
    (Or.inr (Or.inr rfl))

/-- C4: ticket price is a pure function of route distance and seat-class
multiplier, `0.1 * distance * multiplier` quantized to 2 decimal places:
for distance 1000 and multiplier 1.50 it is exactly 150.00 (15000 cents),
and whenever the exact product is representable in cents the quantized
price equals it. -/
theorem ticket_price_pure :
    get_price 1000 150 = 15000 ∧
    ∀ distance mult100 : Nat, (distance * mult100) % 10 = 0 →
      10 * get_price distance mult100 = distance * mult100 := by
  refine ⟨by decide, ?_⟩
  intro d m h
  unfold get_price round_half_even_div10
  simp [h]
  exact Nat.mul_div_cancel' (Nat.dvd_of_mod_eq_zero h)

/-- Witness for C4: the exact product for distance 1000, multiplier 1.50
is representable and the price equals it. -/
theorem ticket_price_pure_witness :
    (1000 * 150) % 10 = 0 ∧ 10 * get_price 1000 150 = 1000 * 150 :=
  ⟨by decide, ticket_price_pure.2 1000 150 (by decide)⟩

/-- C5: a successful Ticket save stores the derived price
`get_price(flight, seat_class)`, and the outcome of the save is identical
for any two client-supplied price values: the stored price never depends
on the supplied one. -/
theorem ticket_price_overwrites (r s : Int) (p₁ p₂ : Nat)
    (rows seats_in_row : Int) (distance mult100 : Nat) :
    ticket_save ⟨r, s, p₁⟩ rows seats_in_row distance mult100
      = ticket_save ⟨r, s, p₂⟩ rows seats_in_row distance mult100 ∧
    ∀ t, ticket_save ⟨r, s, p₁⟩ rows seats_in_row distance mult100 = Except.ok t →
      t.price = get_price distance mult100 := by
  constructor
  · cases hclean : ticket_clean ⟨r, s, p₁⟩ rows seats_in_row with
    | error e =>
      have hclean2 : ticket_clean ⟨r, s, p₂⟩ rows seats_in_row = .error e := hclean
      simp [ticket_save, hclean, hclean2]
    | ok u =>
      cases u
      have hclean2 : ticket_clean ⟨r, s, p₂⟩ rows seats_in_row = .ok () := hclean
      simp [ticket_save, hclean, hclean2]
  · intro t ht
    cases hclean : ticket_clean ⟨r, s, p₁⟩ rows seats_in_row with
    | error e => simp [ticket_save, hclean] at ht
    | ok u =>
      cases u
      simp [ticket_save, hclean] at ht
      subst ht
      rfl

/-- Witness for C5: supplied prices 0 and 99999 produce the same save
outcome, and the stored price is the derived 15000 cents. -/
theorem ticket_price_overwrites_witness :
    ticket_save ⟨1, 1, 0⟩ 4 10 1000 150 = ticket_save ⟨1, 1, 99999⟩ 4 10 1000 150 ∧
    (⟨1, 1, 15000⟩ : Ticket).price = get_price 1000 150 :=
  ⟨(ticket_price_overwrites 1 1 0 99999 4 10 1000 150).1,
   (ticket_price_overwrites 1 1 0 99999 4 10 1000 150).2 ⟨1, 1, 15000⟩ rfl⟩

/-- C7: `Ticket.clean` rejects with a BoundsError exactly when row <= 0,
seat <= 0, row > airplane.rows, or seat > airplane.seats_in_row, and
passes otherwise; in particular row 5 on an airplane with 4 rows fails
with the layout-exceeded error and row 4 passes. -/
theorem ticket_bounds_iff :
    (∀ (r s rows seats_in_row : Int) (p : Nat),
      ticket_clean ⟨r, s, p⟩ rows seats_in_row = Except.ok () ↔
        (0 < r ∧ 0 < s ∧ r ≤ rows ∧ s ≤ seats_in_row)) ∧
    ticket_clean ⟨5, 1, 0⟩ 4 10 = Except.error TicketError.boundsExceeds ∧
    ticket_clean ⟨4, 1, 0⟩ 4 10 = Except.ok () := by
  refine ⟨?_, rfl, rfl⟩
  intro r s rows seats_in_row p
  by_cases h1 : r ≤ 0
  · simp [ticket_clean, h1]
  · by_cases h2 : s ≤ 0
    · simp [ticket_clean, h1, h2]
    · by_cases h3 : r > rows
      · simp [ticket_clean, h1, h2, h3]
      · by_cases h4 : s > seats_in_row
        · simp [ticket_clean, h1, h2, h3, h4]
        · simp [ticket_clean, h1, h2, h3, h4]
          omega

/-- C6 counterexample: on the string " ab" the spec's contract order
(normalize to uppercase/trimmed, then check) accepts, but
`Country.clean` runs before any normalization and applies `isalpha()` to
the raw string, so the save fails. -/
theorem country_order_counterexample :
    country_clean_spec_order [' ', 'a', 'b'] = true ∧
    country_clean [' ', 'a', 'b'] = false ∧
    country_save ['x'] [' ', 'a', 'b'] = Except.error () :=
  ⟨rfl, rfl, rfl⟩

/-- C6 amended: `Country.save` succeeds exactly when the raw iso_code is
already exactly 2 alphabetic characters (and then stores it uppercased);
the check runs BEFORE normalization, on the raw string, so strings that
would become valid only after trimming are rejected. -/
theorem country_save_iff (name s : List Char) :
    (∃ stored, country_save name s = Except.ok stored) ↔
      (s.length = 2 ∧ s.all Char.isAlpha = true) := by
  constructor
  · rintro ⟨stored, hsave⟩
    by_cases hc : country_clean s = true
    · have hc2 := hc
      unfold country_clean pyIsAlpha at hc2
      simp at hc2
      obtain ⟨hlen, hne, hall⟩ := hc2
      have hstrip : pyStrip s = s := pyStrip_eq_self s
        (fun c hcm => isAlpha_not_ws c (hall c hcm))
      rw [hstrip] at hlen
      exact ⟨hlen, List.all_eq_true.mpr hall⟩
    · rw [Bool.not_eq_true] at hc
      simp [country_save, hc] at hsave
  · rintro ⟨hlen, hall⟩
    have hallm := List.all_eq_true.mp hall
    have hstrip : pyStrip s = s := pyStrip_eq_self s
      (fun c hcm => isAlpha_not_ws c (hallm c hcm))
    have hne : s.isEmpty = false := by
      cases s
      · simp at hlen
      · rfl
    have hclean : country_clean s = true := by
      unfold country_clean pyIsAlpha
      simp [hstrip, hlen, hne, hall]
    exact ⟨(pyStrip (pyCapitalize name), pyStrip (pyUpper s)), by simp [country_save, hclean]⟩

/-- C10: Python `str.capitalize()` uppercases only the first character
and lowercases the rest, so the stored name for "New York" is "New york"
and for "USA" is "Usa", across Country, City and SeatClass saves. -/
theorem name_capitalize_examples :
    pyCapitalize ("New York".toList) = "New york".toList ∧
    pyCapitalize ("USA".toList) = "Usa".toList ∧
    country_save ("New York".toList) ("us".toList)
      = Except.ok ("New york".toList, "US".toList) ∧
    country_save ("USA".toList) ("us".toList)
      = Except.ok ("Usa".toList, "US".toList) ∧
    city_save ("New York".toList) ("UTC".toList) ["UTC".toList]
      = Except.ok ("New york".toList) ∧
    city_save ("USA".toList) ("UTC".toList) ["UTC".toList]
      = Except.ok ("Usa".toList) ∧
    seatclass_save ("New York".toList) 0 150 = Except.ok ("New york".toList) ∧
    seatclass_save ("USA".toList) 0 150 = Except.ok ("Usa".toList) :=
  ⟨rfl, rfl, rfl, rfl, rfl, rfl, rfl, rfl⟩

end Airport
